import Mathlib

/-!
Verification of the sync-engine core of `gphoto-email.py` (Google Photos to
Email bridge).  The script polls a photo album, computes the items whose id is
not yet in a persisted seen set (`uploaded_images.pickle`), emails them in
batches of 4 and, only after every batch was sent, persists the enlarged seen
set.  External collaborators (Google APIs, the pickle files, logging) are
modelled as explicit inputs and an effect trace; the pure decision logic
(`get_new_images`' filter, `bulk_email_send`'s slicing loop,
`update_uploaded_image_list`'s union) is translated directly from the source.
-/

/-- A media item as returned by the Photo Source.  The Python code reads the
fields with `item.get(...)`, which yields `None` when a key is absent, so every
field is an `Option`. -/
structure MediaItem where
  id : Option String
  filename : Option String
  baseUrl : Option String
deriving DecidableEq

/-- Python `str.format` of an optional value: `None` prints as `"None"`. -/
def pyFormat : Option String → String
  | some s => s
  | none => "None"

/-- The url built by `get_new_images`: `'{}=d'.format(item.get('baseUrl'))`. -/
def formatUrl (u : Option String) : String := pyFormat u ++ "=d"

/-- The `(id, filename, url)` triples that `get_new_images` returns. -/
abbrev Image := Option String × Option String × String

/-- The pure part of `get_new_images` (src/gphoto-email.py lines 129-135):
the list comprehension
`[(item.get('id'), item.get('filename'), '{}=d'.format(item.get('baseUrl'))) for item in items if item.get('id') not in uploaded_images]`. -/
def get_new_images_pure (items : List MediaItem) (uploaded_images : Finset (Option String)) :
    List Image :=
  (items.filter (fun item => item.id ∉ uploaded_images)).map
    (fun item => (item.id, item.filename, formatUrl item.baseUrl))

/-- The items kept by `get_new_images`' filter, before projection to triples. -/
def deltaItems (items : List MediaItem) (uploaded_images : Finset (Option String)) :
    List MediaItem :=
  items.filter (fun item => item.id ∉ uploaded_images)

/-- Fuel-indexed chunking: for `l.length ≤ fuel`, peel off the slice
`l[0:size]` and recurse on `l[size:]`.  The fuel makes the recursion
structural; `batch` below instantiates it with enough fuel. -/
def batchF {α : Type} (size : Nat) : Nat → List α → List (List α)
  | _, [] => []
  | 0, _ :: _ => []
  | fuel + 1, x :: xs => (x :: xs.take (size - 1)) :: batchF size fuel (xs.drop (size - 1))

/-- The batches visited by the loop in `bulk_email_send`
(src/gphoto-email.py lines 108-114): `idx = 0; while images[idx:idx+4]: ...;
idx += 4` walks the slices `images[idx:idx+size]` until one is empty.  For
`0 < size` the slices are exactly the chunks produced here (see
`batch_cons_slice`); the source fixes `size = 4`. -/
def batch {α : Type} (size : Nat) (l : List α) : List (List α) :=
  batchF size l.length l

/-- A log record emitted through `logger`. -/
inductive LogEvent where
  | error (msg : String)
  | info (msg : String)
deriving DecidableEq

/-- The observable effects of one run of `main`: log records, whether
`get_creds` ran, how many album fetches were attempted, how many times
`load_uploaded_image_list` read the store, the batches passed to `send_email`
(in order, including a failing one), and the values written to the store by
`pickle.dump` (in order). -/
structure Trace where
  logs : List LogEvent
  credsAcquired : Bool
  fetchCalls : Nat
  storeReads : Nat
  deliveries : List (List Image)
  storeWrites : List (Finset (Option String))
deriving DecidableEq

/-- How a run of `main` ends: a normal return, or an uncaught exception
propagating out (the script has no try/except). -/
inductive RunResult where
  | success
  | raised
deriving DecidableEq

/-- The inputs one run of `main` depends on: the two configuration globals
`TO_ADDRESS` and `ALBUM_ID`, the Photo Source response (`Except.error` models
the album listing call raising), the Delivery Channel behaviour (`sendOk i`
tells whether the i-th `send_email` call succeeds; `false` models it raising),
and the persisted seen set (`∅` when `uploaded_images.pickle` is absent). -/
structure RunInput where
  to_address : String
  album_id : String
  fetch : Except Unit (List MediaItem)
  sendOk : Nat → Bool
  store : Finset (Option String)

/-- The loop of `bulk_email_send` over the batches, starting at call index
`i`: each iteration logs, calls `send_email` on the slice, and on success logs
again and moves on; a failing call raises out of the loop.  Returns the
batches passed to `send_email`, the log records, and whether the loop
completed. -/
def sendBatches (sendOk : Nat → Bool) : Nat → List (List Image) →
    List (List Image) × List LogEvent × Bool
  | _, [] => ([], [], true)
  | i, b :: bs =>
    if sendOk i then
      let r := sendBatches sendOk (i + 1) bs
      (b :: r.1, LogEvent.info "Downloading images..." ::
        LogEvent.info "Email sent" :: r.2.1, r.2.2)
    else
      ([b], [LogEvent.info "Downloading images..."], false)

/-- Effect of `bulk_email_send creds images` (src/gphoto-email.py lines
107-114): walk the size-4 slices of `images`. -/
def bulk_email_send (sendOk : Nat → Bool) (images : List Image) :
    List (List Image) × List LogEvent × Bool :=
  sendBatches sendOk 0 (batch 4 images)

/-- The set written by `update_uploaded_image_list images`
(src/gphoto-email.py lines 138-142): the freshly loaded store updated with
`[id for id, _, _ in images]`. -/
def update_uploaded_image_list (store : Finset (Option String))
    (images : List Image) : Finset (Option String) :=
  store ∪ (images.map (fun img => img.1)).toFinset

/-- One run of `main` (src/gphoto-email.py lines 153-167) as a trace of
effects plus how the run ends.  The control flow is translated branch by
branch: the configuration guard returns early; `get_creds` then runs;
`get_new_images` fetches the album (raising is propagated before the store is
ever read) and filters against the loaded store; an empty delta only logs; a
nonempty delta is sent in batches and, only when every batch was sent,
`update_uploaded_image_list` re-reads the store and writes the union once. -/
def main_run (inp : RunInput) : Trace × RunResult :=
  if inp.to_address = "" ∨ inp.album_id = "" then
    (Trace.mk [LogEvent.error "Please set TO_ADDRESS and ALBUM_ID.  Exiting."]
      false 0 0 [] [], RunResult.success)
  else
    match inp.fetch with
    | Except.error _ =>
        (Trace.mk [LogEvent.info "Checking for new images"] true 1 0 [] [],
         RunResult.raised)
    | Except.ok items =>
        let images := get_new_images_pure items inp.store
        if images = [] then
          (Trace.mk [LogEvent.info "Checking for new images",
             LogEvent.info "No new images found"] true 1 1 [] [],
           RunResult.success)
        else
          let r := bulk_email_send inp.sendOk images
          let baseLogs := [LogEvent.info "Checking for new images",
            LogEvent.info (toString images.length ++ " new images found")]
          if r.2.2 then
            (Trace.mk (baseLogs ++ r.2.1) true 1 2 r.1
              [update_uploaded_image_list inp.store images], RunResult.success)
          else
            (Trace.mk (baseLogs ++ r.2.1) true 1 1 r.1 [], RunResult.raised)

/-- The content of the Seen-Set Store after a run: the last value written, or
the initial content when the run wrote nothing. -/
def finalStore (inp : RunInput) : Finset (Option String) :=
  (main_run inp).1.storeWrites.foldl (fun _ w => w) inp.store

/-- The five album items of the counterexample run: all unseen, so the delta
has five elements and splits into a batch of four and a batch of one. -/
def cexItems : List MediaItem :=
  [MediaItem.mk (some "i1") (some "f1") (some "u1"),
   MediaItem.mk (some "i2") (some "f2") (some "u2"),
   MediaItem.mk (some "i3") (some "f3") (some "u3"),
   MediaItem.mk (some "i4") (some "f4") (some "u4"),
   MediaItem.mk (some "i5") (some "f5") (some "u5")]

/-- A run whose first `send_email` call succeeds and whose second raises:
failure on batch 2 of 2. -/
def cexInput : RunInput :=
  RunInput.mk "addr" "album" (Except.ok cexItems) (fun i => i == 0) ∅

/-- The five album items of the C4 witness run; the id `a` is already seen. -/
def w4Items : List MediaItem :=
  [MediaItem.mk (some "a") (some "fa") (some "ua"),
   MediaItem.mk (some "b") (some "fb") (some "ub"),
   MediaItem.mk (some "c") (some "fc") (some "uc"),
   MediaItem.mk (some "d") (some "fd") (some "ud"),
   MediaItem.mk (some "e") (some "fe") (some "ue")]

/-- A fully successful run over `w4Items` starting from the seen set `{a}`. -/
def w4Input : RunInput :=
  RunInput.mk "addr" "album" (Except.ok w4Items) (fun _ => true) {some "a"}

/-- The second run of the engine: same configuration, Photo Source response
and Delivery Channel as `inp`, starting from the store the first run left. -/
def rerun (inp : RunInput) : RunInput :=
  RunInput.mk inp.to_address inp.album_id inp.fetch inp.sendOk (finalStore inp)

/-- The two album items of the C5 witness run. -/
def w5Items : List MediaItem :=
  [MediaItem.mk (some "p") (some "fp") (some "up"),
   MediaItem.mk (some "q") (some "fq") (some "uq")]

/-- A fully successful first run over `w5Items` from the empty seen set. -/
def w5Input : RunInput :=
  RunInput.mk "addr" "album" (Except.ok w5Items) (fun _ => true) ∅

/-- A run over an empty Photo Source result. -/
def w6Input : RunInput :=
  RunInput.mk "addr" "album" (Except.ok []) (fun _ => true) ∅

/-- A run with the destination address left empty. -/
def w7Input : RunInput :=
  RunInput.mk "" "album" (Except.ok []) (fun _ => true) ∅

/-- A run whose album fetch raises. -/
def w8Input : RunInput :=
  RunInput.mk "addr" "album" (Except.error ()) (fun _ => true) {some "z"}

/-- A run used to witness C9: empty album listing over a nonempty store. -/
def w9Input : RunInput :=
  RunInput.mk "addr" "album" (Except.ok []) (fun _ => true) {some "k"}

/-- The C10 witness listing: one id-less item alongside a normal one. -/
def w10Items : List MediaItem :=
  [MediaItem.mk none (some "fz") none,
   MediaItem.mk (some "w") (some "fw") (some "uw")]

/-- A fully successful run over `w10Items` from the empty seen set. -/
def w10Input : RunInput :=
  RunInput.mk "addr" "album" (Except.ok w10Items) (fun _ => true) ∅

/-- A second, distinct id-less item, seen by a later run. -/
def w10Item2 : MediaItem := MediaItem.mk none (some "fy") (some "uy")

/-- The fuel does not matter as long as it covers the list length. -/
theorem batchF_congr {α : Type} (size : Nat) (f₁ : Nat) :
    ∀ (f₂ : Nat) (l : List α), l.length ≤ f₁ → l.length ≤ f₂ →
      batchF size f₁ l = batchF size f₂ l := by
  induction f₁ with
  | zero =>
    intro f₂ l h₁ _
    rw [List.length_eq_zero.mp (Nat.le_zero.mp h₁)]
    cases f₂ <;> rfl
  | succ f ih =>
    intro f₂ l h₁ h₂
    cases l with
    | nil => cases f₂ <;> rfl
    | cons x xs =>
      cases f₂ with
      | zero => simp at h₂
      | succ g =>
        have hd : (xs.drop (size - 1)).length ≤ xs.length := by
          simp [List.length_drop]
        simp only [batchF]
        rw [ih g (xs.drop (size - 1)) (by simp at h₁; omega) (by simp at h₂; omega)]

/-- Unfolding equation of `batch` on a nonempty list. -/
theorem batch_cons {α : Type} (size : Nat) (x : α) (xs : List α) :
    batch size (x :: xs) = (x :: xs.take (size - 1)) :: batch size (xs.drop (size - 1)) := by
  show batchF size (xs.length + 1) (x :: xs) = _
  simp only [batchF]
  rw [batchF_congr size xs.length (xs.drop (size - 1)).length (xs.drop (size - 1))
    (by simp [List.length_drop]) (Nat.le_refl _)]
  rfl

/-- For a nonempty list and positive size, `batch` takes the slice
`l[0:size]` and recurses on `l[size:]`, exactly as the source loop does. -/
theorem batch_cons_slice {α : Type} (size : Nat) (h : 0 < size) (x : α) (xs : List α) :
    batch size (x :: xs) = (x :: xs).take size :: batch size ((x :: xs).drop size) := by
  rw [batch_cons]
  cases size with
  | zero => omega
  | succ n => simp [List.take_succ_cons, List.drop_succ_cons]

/-- The batching of a list is empty exactly when the list is. -/
theorem batch_eq_nil {α : Type} (size : Nat) (l : List α) :
    batch size l = [] ↔ l = [] := by
  cases l with
  | nil => simp [batch, batchF]
  | cons x xs => rw [batch_cons]; simp

/-- Concatenating the batches gives back the original list in order. -/
theorem batch_flatten {α : Type} (size : Nat) (l : List α) :
    (batch size l).flatten = l := by
  suffices h : ∀ (n : Nat) (l : List α), l.length ≤ n → (batch size l).flatten = l from
    h l.length l (Nat.le_refl _)
  intro n
  induction n with
  | zero =>
    intro l hl
    rw [List.length_eq_zero.mp (Nat.le_zero.mp hl)]
    rfl
  | succ n ih =>
    intro l hl
    cases l with
    | nil => rfl
    | cons x xs =>
      simp only [List.length_cons, Nat.add_le_add_iff_right] at hl
      rw [batch_cons, List.flatten_cons,
        ih (xs.drop (size - 1)) (by simp only [List.length_drop]; omega),
        List.cons_append, List.take_append_drop]

/-- The number of batches is the ceiling of `length / size`. -/
theorem batch_length {α : Type} (size : Nat) (h : 0 < size) (l : List α) :
    (batch size l).length = (l.length + size - 1) / size := by
  suffices hs : ∀ (n : Nat) (l : List α), l.length ≤ n →
      (batch size l).length = (l.length + size - 1) / size from
    hs l.length l (Nat.le_refl _)
  intro n
  induction n with
  | zero =>
    intro l hl
    rw [List.length_eq_zero.mp (Nat.le_zero.mp hl)]
    simp [batch, batchF]
    exact (Nat.div_eq_of_lt (by omega)).symm
  | succ n ih =>
    intro l hl
    cases l with
    | nil =>
      simp [batch, batchF]
      exact (Nat.div_eq_of_lt (by omega)).symm
    | cons x xs =>
      simp only [List.length_cons, Nat.add_le_add_iff_right] at hl
      rw [batch_cons, List.length_cons,
        ih (xs.drop (size - 1)) (by simp only [List.length_drop]; omega),
        List.length_drop, List.length_cons]
      rcases Nat.lt_or_ge xs.length size with hlt | hge
      · by_cases hz : xs.length ≤ size - 1
        · have h1 : xs.length - (size - 1) = 0 := by omega
          have h2 : xs.length + 1 + size - 1 = xs.length + size := by omega
          rw [h1, h2]
          have h3 : (0 + size - 1) / size = 0 := Nat.div_eq_of_lt (by omega)
          have h4 : (xs.length + size) / size = xs.length / size + 1 :=
            Nat.add_div_right _ h
          rw [h3, h4, Nat.div_eq_of_lt hlt]
        · omega
      · have h1 : xs.length - (size - 1) + size - 1 = xs.length := by omega
        have h2 : xs.length + 1 + size - 1 = xs.length + size := by omega
        rw [h1, h2, Nat.add_div_right _ h]

/-- Every batch except possibly the last has exactly `size` elements. -/
theorem batch_sizes {α : Type} (size : Nat) (h : 0 < size) (l : List α) :
    ∀ g ∈ (batch size l).dropLast, g.length = size := by
  suffices hs : ∀ (n : Nat) (l : List α), l.length ≤ n →
      ∀ g ∈ (batch size l).dropLast, g.length = size from
    hs l.length l (Nat.le_refl _)
  intro n
  induction n with
  | zero =>
    intro l hl
    rw [List.length_eq_zero.mp (Nat.le_zero.mp hl)]
    simp [batch, batchF]
  | succ n ih =>
    intro l hl
    cases l with
    | nil => simp [batch, batchF]
    | cons x xs =>
      simp only [List.length_cons, Nat.add_le_add_iff_right] at hl
      intro g hg
      rw [batch_cons] at hg
      by_cases hrest : batch size (xs.drop (size - 1)) = []
      · rw [hrest] at hg
        simp at hg
      · rw [List.dropLast_cons_of_ne_nil hrest] at hg
        rcases List.mem_cons.mp hg with hEq | hmem
        · subst hEq
          have hd : xs.drop (size - 1) ≠ [] := by
            intro hc
            exact hrest ((batch_eq_nil size _).mpr hc)
          have hlen : size - 1 < xs.length := by
            by_contra hc
            exact hd (List.drop_eq_nil_of_le (by omega))
          simp [List.length_take]
          omega
        · exact ih (xs.drop (size - 1)) (by simp only [List.length_drop]; omega) g hmem

/-- When every `send_email` call succeeds, the loop of `bulk_email_send`
passes every batch to `send_email` and completes. -/
theorem sendBatches_all_ok (sendOk : Nat → Bool) (h : ∀ i, sendOk i = true)
    (bs : List (List Image)) (i : Nat) :
    (sendBatches sendOk i bs).1 = bs ∧ (sendBatches sendOk i bs).2.2 = true := by
  induction bs generalizing i with
  | nil => simp [sendBatches]
  | cons b bs ih =>
    have := ih (i + 1)
    simp [sendBatches, h i, this.1, this.2]

/-- When the configuration guard fires, the run only logs the error and
returns. -/
theorem main_run_config_eq (inp : RunInput)
    (h : inp.to_address = "" ∨ inp.album_id = "") :
    main_run inp = (Trace.mk
      [LogEvent.error "Please set TO_ADDRESS and ALBUM_ID.  Exiting."]
      false 0 0 [] [], RunResult.success) := by
  unfold main_run
  rw [if_pos h]

/-- When the album fetch raises, the exception propagates before the store is
read, delivered to, or written. -/
theorem main_run_fetch_error_eq (inp : RunInput)
    (hto : inp.to_address ≠ "") (hal : inp.album_id ≠ "")
    (e : Unit) (hf : inp.fetch = Except.error e) :
    main_run inp = (Trace.mk [LogEvent.info "Checking for new images"]
      true 1 0 [] [], RunResult.raised) := by
  unfold main_run
  rw [if_neg (by simp [hto, hal]), hf]

/-- When the delta is empty the run only logs and returns. -/
theorem main_run_empty_eq (inp : RunInput) (items : List MediaItem)
    (hto : inp.to_address ≠ "") (hal : inp.album_id ≠ "")
    (hf : inp.fetch = Except.ok items)
    (hempty : get_new_images_pure items inp.store = []) :
    main_run inp = (Trace.mk [LogEvent.info "Checking for new images",
      LogEvent.info "No new images found"] true 1 1 [] [],
      RunResult.success) := by
  unfold main_run
  rw [if_neg (by simp [hto, hal]), hf]
  simp only [hempty]
  simp

/-- When every batch is sent, the run delivers every batch and then performs
its single store write. -/
theorem main_run_success_eq (inp : RunInput) (items : List MediaItem)
    (hto : inp.to_address ≠ "") (hal : inp.album_id ≠ "")
    (hf : inp.fetch = Except.ok items)
    (hne : get_new_images_pure items inp.store ≠ [])
    (hok : ∀ i, inp.sendOk i = true) :
    main_run inp = (Trace.mk
      ([LogEvent.info "Checking for new images",
        LogEvent.info (toString (get_new_images_pure items inp.store).length
          ++ " new images found")]
        ++ (bulk_email_send inp.sendOk (get_new_images_pure items inp.store)).2.1)
      true 1 2 (batch 4 (get_new_images_pure items inp.store))
      [update_uploaded_image_list inp.store (get_new_images_pure items inp.store)],
      RunResult.success) := by
  have hs := sendBatches_all_ok inp.sendOk hok
    (batch 4 (get_new_images_pure items inp.store)) 0
  unfold main_run
  rw [if_neg (by simp [hto, hal]), hf]
  simp only [if_neg hne, bulk_email_send, hs.1, hs.2]
  simp

/-- When some batch fails to send, the loop raises out of `main` and the
store write is never reached. -/
theorem main_run_sendfail_eq (inp : RunInput) (items : List MediaItem)
    (hto : inp.to_address ≠ "") (hal : inp.album_id ≠ "")
    (hf : inp.fetch = Except.ok items)
    (hne : get_new_images_pure items inp.store ≠ [])
    (hfail : (bulk_email_send inp.sendOk (get_new_images_pure items inp.store)).2.2 = false) :
    main_run inp = (Trace.mk
      ([LogEvent.info "Checking for new images",
        LogEvent.info (toString (get_new_images_pure items inp.store).length
          ++ " new images found")]
        ++ (bulk_email_send inp.sendOk (get_new_images_pure items inp.store)).2.1)
      true 1 1 (bulk_email_send inp.sendOk (get_new_images_pure items inp.store)).1 [],
      RunResult.raised) := by
  unfold main_run
  rw [if_neg (by simp [hto, hal]), hf]
  simp only [if_neg hne, hfail, if_neg (by simp : ¬ (false = true))]

/-- After a fully successful run the store holds the old seen set united with
the ids of the delta (also when the delta was empty and nothing was written).
-/
theorem finalStore_success (inp : RunInput) (items : List MediaItem)
    (hto : inp.to_address ≠ "") (hal : inp.album_id ≠ "")
    (hf : inp.fetch = Except.ok items)
    (hok : ∀ i, inp.sendOk i = true) :
    finalStore inp = inp.store ∪
      ((get_new_images_pure items inp.store).map (fun img => img.1)).toFinset := by
  by_cases hne : get_new_images_pure items inp.store = []
  · rw [finalStore, main_run_empty_eq inp items hto hal hf hne]
    simp [hne]
  · rw [finalStore, main_run_success_eq inp items hto hal hf hne hok]
    simp [update_uploaded_image_list]

/-- Filtering against a store that already contains the ids of the previous
delta removes everything: the delta of an unchanged listing is empty. -/
theorem delta_after_commit (items : List MediaItem) (store : Finset (Option String)) :
    get_new_images_pure items
      (store ∪ ((get_new_images_pure items store).map (fun img => img.1)).toFinset) = [] := by
  unfold get_new_images_pure
  rw [List.map_eq_nil_iff, List.filter_eq_nil_iff]
  intro it hmem
  simp only [decide_eq_true_eq, Decidable.not_not]
  by_cases hstore : it.id ∈ store
  · exact Finset.mem_union_left _ hstore
  · have hmem2 : it ∈ items.filter (fun item => item.id ∉ store) :=
      List.mem_filter.mpr ⟨hmem, by simpa using hstore⟩
    have hid : it.id ∈ (get_new_images_pure items store).map (fun img => img.1) := by
      unfold get_new_images_pure
      rw [List.map_map]
      exact List.mem_map.mpr ⟨it, hmem2, rfl⟩
    exact Finset.mem_union_right _ (List.mem_toFinset.mpr hid)

/-- Claim C2: for every `current_items` and `seen`, the delta computed by
`get_new_images` keeps exactly the items whose id is not a member of `seen`
(as a sublist of `current_items`, hence in their original relative order),
and the returned triples are the field-wise projection of precisely those
items.  The embedding is a pure function of its arguments, matching the
source's comprehension which builds a fresh list and never mutates `items`
or `uploaded_images`. -/
theorem C2_compute_delta_exact (items : List MediaItem) (seen : Finset (Option String)) :
    List.Sublist (deltaItems items seen) items
    ∧ (∀ it : MediaItem, it ∈ deltaItems items seen ↔ it ∈ items ∧ it.id ∉ seen)
    ∧ get_new_images_pure items seen
        = (deltaItems items seen).map (fun it => (it.id, it.filename, formatUrl it.baseUrl)) := by
  refine ⟨List.filter_sublist _, ?_, rfl⟩
  intro it
  simp [deltaItems, List.mem_filter]

/-- Claim C3: for every sequence and every positive batch size (the source
fixes 4), batching yields `ceil(length/size)` consecutive groups, every group
except possibly the last has exactly `size` elements, the concatenation of the
groups restores the input, and the empty sequence yields zero groups — hence
`bulk_email_send` performs zero delivery calls on it. -/
theorem C3_batch_partition {α : Type} (items : List α) (size : Nat)
    (h : 0 < size) (sendOk : Nat → Bool) :
    (batch size items).length = (items.length + size - 1) / size
    ∧ (∀ g ∈ (batch size items).dropLast, g.length = size)
    ∧ (batch size items).flatten = items
    ∧ batch size ([] : List α) = []
    ∧ (bulk_email_send sendOk []).1 = [] :=
  ⟨batch_length size h items, batch_sizes size h items, batch_flatten size items, rfl, rfl⟩

/-- Witness for C3: batch size 4 on the five-element list of the spec's
example splits into a full group of four and a singleton. -/
theorem C3_batch_partition_witness :
    (batch 4 ["b", "c", "d", "e", "f"]).length
      = ((["b", "c", "d", "e", "f"] : List String).length + 4 - 1) / 4
    ∧ (∀ g ∈ (batch 4 ["b", "c", "d", "e", "f"]).dropLast, g.length = 4)
    ∧ (batch 4 ["b", "c", "d", "e", "f"]).flatten = ["b", "c", "d", "e", "f"]
    ∧ batch 4 ([] : List String) = []
    ∧ (bulk_email_send (fun _ => true) []).1 = [] :=
  C3_batch_partition ["b", "c", "d", "e", "f"] 4 (by decide) (fun _ => true)

/-- When the send loop completes (every attempted call succeeded), the run
delivers the batches the loop visited and performs its single store write. -/
theorem main_run_sendok_eq (inp : RunInput) (items : List MediaItem)
    (hto : inp.to_address ≠ "") (hal : inp.album_id ≠ "")
    (hf : inp.fetch = Except.ok items)
    (hne : get_new_images_pure items inp.store ≠ [])
    (hdone : (bulk_email_send inp.sendOk (get_new_images_pure items inp.store)).2.2 = true) :
    main_run inp = (Trace.mk
      ([LogEvent.info "Checking for new images",
        LogEvent.info (toString (get_new_images_pure items inp.store).length
          ++ " new images found")]
        ++ (bulk_email_send inp.sendOk (get_new_images_pure items inp.store)).2.1)
      true 1 2 (bulk_email_send inp.sendOk (get_new_images_pure items inp.store)).1
      [update_uploaded_image_list inp.store (get_new_images_pure items inp.store)],
      RunResult.success) := by
  unfold main_run
  rw [if_neg (by simp [hto, hal]), hf]
  simp only [if_neg hne, hdone]
  simp

/-- Claim C1 is false on the code: in this run the delta splits into two
batches, batch 1 is sent successfully and the Delivery Channel raises on
batch 2, yet the run performs no store write at all — the persisted seen set
is the unchanged initial store, not the ids of batch 1 as the claim requires.
-/
theorem C1_counterexample :
    (batch 4 (get_new_images_pure cexItems cexInput.store)).length = 2
    ∧ cexInput.sendOk 0 = true
    ∧ cexInput.sendOk 1 = false
    ∧ (main_run cexInput).1.deliveries.length = 2
    ∧ (main_run cexInput).2 = RunResult.raised
    ∧ (main_run cexInput).1.storeWrites = []
    ∧ ((((batch 4 (get_new_images_pure cexItems cexInput.store)).take 1).flatten.map
        (fun img => img.1)).toFinset : Finset (Option String)) ≠ ∅
    ∧ ¬ (finalStore cexInput = cexInput.store ∪
        (((batch 4 (get_new_images_pure cexItems cexInput.store)).take 1).flatten.map
          (fun img => img.1)).toFinset) := by
  decide

/-- Claim C1 as amended: when the Delivery Channel raises on any batch, the
run commits nothing — the Seen-Set Store is never written, so the persisted
set is the unchanged prior seen set; in particular no partial batch and no id
from the failed or later batches is committed, but the ids of the batches
already sent in this run are not committed either. -/
theorem C1_no_commit_on_delivery_failure (inp : RunInput) (items : List MediaItem)
    (hto : inp.to_address ≠ "") (hal : inp.album_id ≠ "")
    (hf : inp.fetch = Except.ok items)
    (hne : get_new_images_pure items inp.store ≠ [])
    (hfail : (bulk_email_send inp.sendOk (get_new_images_pure items inp.store)).2.2 = false) :
    (main_run inp).1.storeWrites = [] ∧ finalStore inp = inp.store := by
  have h := main_run_sendfail_eq inp items hto hal hf hne hfail
  constructor
  · rw [h]
  · rw [finalStore, h]
    rfl

/-- Witness for the amended C1 at the counterexample run. -/
theorem C1_no_commit_on_delivery_failure_witness :
    (main_run cexInput).1.storeWrites = [] ∧ finalStore cexInput = cexInput.store :=
  C1_no_commit_on_delivery_failure cexInput cexItems (by decide) (by decide) rfl
    (by decide) (by decide)

/-- Claim C4: in a run where the fetch succeeds, the delta is nonempty, and
every delivery batch succeeds, the items delivered are exactly the delta and
the run performs exactly one store write, whose value is the previously
stored seen set united with the ids of all items delivered in that run.
(A run with an empty delta performs no deliveries and no write at all; that
is claim C6.) -/
theorem C4_single_commit_union (inp : RunInput) (items : List MediaItem)
    (hto : inp.to_address ≠ "") (hal : inp.album_id ≠ "")
    (hf : inp.fetch = Except.ok items)
    (hne : get_new_images_pure items inp.store ≠ [])
    (hok : ∀ i, inp.sendOk i = true) :
    (main_run inp).1.deliveries.flatten = get_new_images_pure items inp.store
    ∧ (main_run inp).1.storeWrites
        = [inp.store ∪
            (((main_run inp).1.deliveries.flatten).map (fun img => img.1)).toFinset] := by
  rw [main_run_success_eq inp items hto hal hf hne hok]
  constructor
  · exact batch_flatten 4 _
  · show [update_uploaded_image_list inp.store (get_new_images_pure items inp.store)] = _
    rw [batch_flatten 4 _]
    rfl

/-- Witness for C4 at a concrete fully successful run. -/
theorem C4_single_commit_union_witness :
    (main_run w4Input).1.deliveries.flatten = get_new_images_pure w4Items w4Input.store
    ∧ (main_run w4Input).1.storeWrites
        = [w4Input.store ∪
            (((main_run w4Input).1.deliveries.flatten).map (fun img => img.1)).toFinset] :=
  C4_single_commit_union w4Input w4Items (by decide) (by decide) rfl (by decide)
    (fun _ => rfl)

/-- Claim C5: after one fully successful run, a second run against an
unchanged Photo Source result finds an empty delta, delivers zero images,
writes nothing to the store, and ends successfully. -/
theorem C5_idempotent_second_run (inp : RunInput) (items : List MediaItem)
    (hto : inp.to_address ≠ "") (hal : inp.album_id ≠ "")
    (hf : inp.fetch = Except.ok items)
    (hok : ∀ i, inp.sendOk i = true) :
    get_new_images_pure items (rerun inp).store = []
    ∧ (main_run (rerun inp)).1.deliveries = []
    ∧ (main_run (rerun inp)).1.storeWrites = []
    ∧ (main_run (rerun inp)).2 = RunResult.success := by
  have hdelta : get_new_images_pure items (rerun inp).store = [] := by
    show get_new_images_pure items (finalStore inp) = []
    rw [finalStore_success inp items hto hal hf hok]
    exact delta_after_commit items inp.store
  have hrun := main_run_empty_eq (rerun inp) items hto hal hf hdelta
  exact ⟨hdelta, by rw [hrun], by rw [hrun], by rw [hrun]⟩

/-- Witness for C5 at a concrete pair of runs. -/
theorem C5_idempotent_second_run_witness :
    get_new_images_pure w5Items (rerun w5Input).store = []
    ∧ (main_run (rerun w5Input)).1.deliveries = []
    ∧ (main_run (rerun w5Input)).1.storeWrites = []
    ∧ (main_run (rerun w5Input)).2 = RunResult.success :=
  C5_idempotent_second_run w5Input w5Items (by decide) (by decide) rfl (fun _ => rfl)

/-- Claim C6: a run whose computed delta is empty logs "No new images found"
and terminates successfully, with zero Delivery Channel calls and no store
write (the single store read is the one `get_new_images` does to compute the
delta). -/
theorem C6_empty_delta_noop (inp : RunInput) (items : List MediaItem)
    (hto : inp.to_address ≠ "") (hal : inp.album_id ≠ "")
    (hf : inp.fetch = Except.ok items)
    (hempty : get_new_images_pure items inp.store = []) :
    main_run inp = (Trace.mk [LogEvent.info "Checking for new images",
      LogEvent.info "No new images found"] true 1 1 [] [],
      RunResult.success) :=
  main_run_empty_eq inp items hto hal hf hempty

/-- Witness for C6 at an empty Photo Source result. -/
theorem C6_empty_delta_noop_witness :
    main_run w6Input = (Trace.mk [LogEvent.info "Checking for new images",
      LogEvent.info "No new images found"] true 1 1 [] [],
      RunResult.success) :=
  C6_empty_delta_noop w6Input [] (by decide) (by decide) rfl rfl

/-- Claim C7: with either configuration value empty, the run logs an
error-level message and returns at once: no credential acquisition, no fetch,
no store read or write, no delivery call. -/
theorem C7_config_guard_no_side_effects (inp : RunInput)
    (h : inp.to_address = "" ∨ inp.album_id = "") :
    main_run inp = (Trace.mk
      [LogEvent.error "Please set TO_ADDRESS and ALBUM_ID.  Exiting."]
      false 0 0 [] [], RunResult.success) :=
  main_run_config_eq inp h

/-- Witness for C7 at a run with an empty `TO_ADDRESS`. -/
theorem C7_config_guard_no_side_effects_witness :
    main_run w7Input = (Trace.mk
      [LogEvent.error "Please set TO_ADDRESS and ALBUM_ID.  Exiting."]
      false 0 0 [] [], RunResult.success) :=
  C7_config_guard_no_side_effects w7Input (Or.inl rfl)

/-- Claim C8: when the album listing fetch raises, the run ends with the
exception surfaced after exactly one fetch attempt (no retry); the Delivery
Channel is never invoked and the store is neither read nor written. -/
theorem C8_fetch_failure_fatal (inp : RunInput)
    (hto : inp.to_address ≠ "") (hal : inp.album_id ≠ "")
    (hf : inp.fetch = Except.error ()) :
    main_run inp = (Trace.mk [LogEvent.info "Checking for new images"]
      true 1 0 [] [], RunResult.raised) :=
  main_run_fetch_error_eq inp hto hal () hf

/-- Witness for C8 at a concrete failing fetch. -/
theorem C8_fetch_failure_fatal_witness :
    main_run w8Input = (Trace.mk [LogEvent.info "Checking for new images"]
      true 1 0 [] [], RunResult.raised) :=
  C8_fetch_failure_fatal w8Input (by decide) (by decide) rfl

/-- Claim C9: the seen set only grows.  Whatever the run's outcome —
configuration failure, fetch failure, empty delta, delivery failure or full
success — every id stored before the run is still stored after it; the only
write ever performed is a union with the loaded set. -/
theorem C9_seen_set_monotone (inp : RunInput) : inp.store ⊆ finalStore inp := by
  by_cases hcfg : inp.to_address = "" ∨ inp.album_id = ""
  · rw [finalStore, main_run_config_eq inp hcfg]
    exact Finset.Subset.refl _
  · push_neg at hcfg
    obtain ⟨hto, hal⟩ := hcfg
    cases hfe : inp.fetch with
    | error e =>
      rw [finalStore, main_run_fetch_error_eq inp hto hal e hfe]
      exact Finset.Subset.refl _
    | ok items =>
      by_cases hne : get_new_images_pure items inp.store = []
      · rw [finalStore, main_run_empty_eq inp items hto hal hfe hne]
        exact Finset.Subset.refl _
      · by_cases hdone :
          (bulk_email_send inp.sendOk (get_new_images_pure items inp.store)).2.2 = true
        · rw [finalStore, main_run_sendok_eq inp items hto hal hfe hne hdone]
          show inp.store ⊆ inp.store ∪ _
          exact Finset.subset_union_left
        · rw [finalStore,
            main_run_sendfail_eq inp items hto hal hfe hne (by simpa using hdone)]
          exact Finset.Subset.refl _

/-- Witness for C9 at a concrete run. -/
theorem C9_seen_set_monotone_witness : w9Input.store ⊆ finalStore w9Input :=
  C9_seen_set_monotone w9Input

/-- An item whose id is absent sits in the delta exactly when the sentinel
`none` is not in the seen set: the filter of `get_new_images` consults only
the item's id. -/
theorem mem_delta_iff_of_id_none (seen : Finset (Option String))
    (items : List MediaItem) (kt : MediaItem) (hmem : kt ∈ items)
    (hid : kt.id = none) :
    (kt.id, kt.filename, formatUrl kt.baseUrl) ∈ get_new_images_pure items seen
      ↔ (none : Option String) ∉ seen := by
  unfold get_new_images_pure
  constructor
  · intro h
    obtain ⟨m, hm, heq⟩ := List.mem_map.mp h
    have hmid : m.id = kt.id := congrArg Prod.fst heq
    have hp := (List.mem_filter.mp hm).2
    simp only [decide_eq_true_eq] at hp
    intro hcontra
    exact hp (by rw [hmid, hid]; exact hcontra)
  · intro h
    refine List.mem_map.mpr ⟨kt, List.mem_filter.mpr ⟨hmem, ?_⟩, rfl⟩
    simp only [decide_eq_true_eq]
    rw [hid]
    exact h

/-- Claim C10: membership in the seen set is decided solely by the item's id;
an item lacking an id carries the sentinel id `none` and is included in the
delta exactly when `none` is not in the seen set.  After a successful run
that delivered (and committed) one id-less item, `none` is in the stored set,
so every id-less item of every later listing is excluded from the delta:
distinct id-less photos deduplicate against each other. -/
theorem C10_idless_sentinel (inp : RunInput) (items : List MediaItem)
    (hto : inp.to_address ≠ "") (hal : inp.album_id ≠ "")
    (hf : inp.fetch = Except.ok items)
    (hok : ∀ i, inp.sendOk i = true)
    (it : MediaItem) (hmem : it ∈ items) (hid : it.id = none)
    (hnew : (none : Option String) ∉ inp.store)
    (items₂ : List MediaItem) (jt : MediaItem) (hmem₂ : jt ∈ items₂)
    (hid₂ : jt.id = none)
    (seen : Finset (Option String)) (items₃ : List MediaItem) (kt : MediaItem)
    (hmem₃ : kt ∈ items₃) (hid₃ : kt.id = none) :
    ((kt.id, kt.filename, formatUrl kt.baseUrl) ∈ get_new_images_pure items₃ seen
      ↔ (none : Option String) ∉ seen)
    ∧ (it.id, it.filename, formatUrl it.baseUrl) ∈ get_new_images_pure items inp.store
    ∧ (none : Option String) ∈ finalStore inp
    ∧ (jt.id, jt.filename, formatUrl jt.baseUrl) ∉
        get_new_images_pure items₂ (finalStore inp) := by
  have hfin : (none : Option String) ∈ finalStore inp := by
    rw [finalStore_success inp items hto hal hf hok]
    apply Finset.mem_union_right
    apply List.mem_toFinset.mpr
    unfold get_new_images_pure
    rw [List.map_map]
    refine List.mem_map.mpr ⟨it, List.mem_filter.mpr ⟨hmem, ?_⟩, hid⟩
    simp only [decide_eq_true_eq]
    rw [hid]
    exact hnew
  refine ⟨mem_delta_iff_of_id_none seen items₃ kt hmem₃ hid₃, ?_, hfin, ?_⟩
  · exact (mem_delta_iff_of_id_none inp.store items it hmem hid).mpr hnew
  · intro hcontra
    exact ((mem_delta_iff_of_id_none (finalStore inp) items₂ jt hmem₂ hid₂).mp hcontra) hfin

/-- Witness for C10 at a concrete run containing an id-less item. -/
theorem C10_idless_sentinel_witness :
    (((MediaItem.mk none (some "fz") none : MediaItem).id,
        (MediaItem.mk none (some "fz") none : MediaItem).filename,
        formatUrl (MediaItem.mk none (some "fz") none : MediaItem).baseUrl)
      ∈ get_new_images_pure w10Items (∅ : Finset (Option String))
      ↔ (none : Option String) ∉ (∅ : Finset (Option String)))
    ∧ ((MediaItem.mk none (some "fz") none : MediaItem).id,
        (MediaItem.mk none (some "fz") none : MediaItem).filename,
        formatUrl (MediaItem.mk none (some "fz") none : MediaItem).baseUrl)
      ∈ get_new_images_pure w10Items w10Input.store
    ∧ (none : Option String) ∈ finalStore w10Input
    ∧ (w10Item2.id, w10Item2.filename, formatUrl w10Item2.baseUrl) ∉
        get_new_images_pure [w10Item2] (finalStore w10Input) :=
  C10_idless_sentinel w10Input w10Items (by decide) (by decide) rfl (fun _ => rfl)
    (MediaItem.mk none (some "fz") none) (by decide) rfl (by decide)
    [w10Item2] w10Item2 (by decide) rfl
    (∅ : Finset (Option String)) w10Items (MediaItem.mk none (some "fz") none)
    (by decide) rfl

